import Mathlib

/-!
# Verification of `BrowserTool` (mcp_browser_tool, `browser_tool.py`)

A shallow embedding of the `BrowserTool` class from `src/browser_tool.py`.

Modelling conventions:

* The mutable object state (`self.playwright`, `self.browser`, `self.page`,
  `self._initializing`, `self.llm`) becomes the structure `BrowserTool`,
  threaded explicitly through every method.
* External calls (Playwright APIs, the llama model, `os.getenv`,
  `os.path.exists`) are oracles: each method takes an environment record
  whose fields give the outcome (`Except String α`: `ok` = the call
  returned, `error` = the call raised) of each external interaction.
* A Python method returning normally with value `a` is `Except.ok a`; a
  method raising an exception with message `m` is `Except.error m`.
* Each method additionally emits a trace (`List Effect`) of the external
  interactions it performed.  Only the interactions and log lines that the
  properties below inspect are traced; `logger.info` narration inside the
  session methods is not recorded (it has no observable effect).
* Handles (playwright driver, browser process, page, llama model) are
  opaque and modelled as `Nat` identifiers.
* Exception message strings follow the source f-strings, except that
  single-quote characters inside messages are elided.
-/

/-- Trace element: one external interaction performed by a method. -/
inductive Effect where
  | startPlaywright
  | launchBrowser
  | newContext
  | newPage
  | addInitScript
  | pageGoto (url : String)
  | waitForSelector (sel : String)
  | pageContent
  | llmCall (prompt : String) (maxTokens : Int)
  | pageClose
  | browserClose
  | playwrightStop
  | logInfo (msg : String)
  | logWarning (msg : String)
  | logError (msg : String)
deriving BEq, DecidableEq, Repr

/-- The `self.llm` attribute.  Python lets `__init__` finish without ever
assigning the attribute (the missing-file branch, lines 27-37, has no
`else`), so the field is three-valued: `unset` models the attribute not
existing at all (access raises `AttributeError`), `nil` models
`self.llm = None`, `loaded` models a loaded model object. -/
inductive LlmField where
  | unset
  | nil
  | loaded (h : Nat)
deriving BEq, DecidableEq, Repr

/-- The state of a `BrowserTool` object (`browser_tool.py`, lines 19-40):
`self.playwright`, `self.browser`, `self.page`, `self._initializing`
(named `initInProgress` here), `self.llm`. -/
structure BrowserTool where
  playwright : Option Nat
  browser : Option Nat
  page : Option Nat
  initInProgress : Bool
  llm : LlmField
deriving DecidableEq, Repr

/-- Result of running one method: the returned value or raised exception,
the object state after the call, and the trace of external interactions. -/
structure StepResult (α : Type) where
  result : Except String α
  state : BrowserTool
  effects : List Effect
deriving Repr

/-- Intermediate result inside `_setup_browser`: partial state, the
pending exception (if one of the Playwright calls raised), trace. -/
structure PartialResult where
  st : BrowserTool
  err : Option String
  effs : List Effect

/-- A Playwright navigation response.  `status` is `none` when the
response object has no integer `status` attribute (the defensive
`hasattr`/`isinstance` check on line 169 of the source). -/
structure Response where
  status : Option Int
deriving DecidableEq, Repr

/-- One entry of the backend `results` JSON array: the `title`, `url` and
`content` members, each possibly absent. -/
structure RawResult where
  title : Option String
  url : Option String
  content : Option String
deriving DecidableEq, Repr

/-- A Search Result value as built on lines 139-143 of the source. -/
structure SearchResult where
  title : String
  url : String
  snippet : String
deriving DecidableEq, Repr

/-- The value of `data.get("results", [])` (line 131): the key may be
absent (the default `[]` is used), may hold a non-array JSON value
(slicing/iterating it raises and the `except` on line 152 turns the call
into `[]`), or may hold an array of entries. -/
inductive ResultsField where
  | absent
  | notList
  | list (rs : List RawResult)
deriving DecidableEq, Repr

/-- The JSON object parsed from the preformatted block (line 128). -/
structure SearchData where
  results : ResultsField
deriving DecidableEq, Repr

/-- Environment for `__init__` (lines 19-40): the value of the `LLM`
environment variable, whether `os.path.exists` holds of the (quote-
stripped) path, and the outcome of the `Llama(...)` constructor. -/
structure InitEnv where
  llmEnvVar : Option String
  pathExists : Bool
  llamaLoad : Except String Nat

/-- Environment for `_setup_browser` (lines 42-99): outcomes of
`async_playwright().start()`, `chromium.launch(...)`,
`browser.new_context(...)`, `context.new_page()` and
`page.add_init_script(...)`. -/
structure SetupEnv where
  startPW : Except String Nat
  launch : Except String Nat
  newCtx : Except String Nat
  newPg : Except String Nat
  addScript : Except String Unit

/-- Environment for `web_search` (lines 101-154): the `SEARXNG_URL`
environment variable, the `page.goto` outcome (a raised exception, `None`,
or a response), the `page.content()` outcome, and the parsing pipeline:
`preParsed = none` models `soup.find("pre")` finding no block,
`some (.error e)` models `json.loads` raising, `some (.ok d)` the parsed
object. -/
structure SearchEnv where
  setup : SetupEnv
  searxngUrl : Option String
  gotoResult : Except String (Option Response)
  contentResult : Except String String
  preParsed : Option (Except String SearchData)

/-- Environment for `navigate` (lines 156-183). -/
structure NavEnv where
  setup : SetupEnv
  gotoResult : Except String (Option Response)
  waitSelector : Except String Unit

/-- Environment for `extract_content` (lines 185-207): the nested
`navigate` call gets its own environment; `contentResult` is the
`page.content()` outcome and `soupText` the output of the external Text
Extractor (`soup.get_text(separator=" ", strip=True)` after dropping
script/style nodes) on that markup. -/
structure ExtractEnv where
  setup : SetupEnv
  nav : NavEnv
  contentResult : Except String String
  soupText : String

/-- Environment for `summarize` (lines 209-240): the outcome of the llama
call, already projected to `output["choices"][0]["text"]`. -/
structure SummarizeEnv where
  llmResult : Except String String

/-- Environment for `close` (lines 242-265). -/
structure CloseEnv where
  pageClose : Except String Unit
  browserClose : Except String Unit
  playwrightStop : Except String Unit

/-- Python `s.strip("\x22\x27")` (line 29): drop leading and trailing
double-quote (code 34) and single-quote (code 39) characters. -/
def stripQuotes (s : String) : String :=
  let isQuote : Char → Bool := fun c => c.toNat = 34 || c.toNat = 39
  let cs := (s.toList.dropWhile isQuote).reverse.dropWhile isQuote
  String.mk cs.reverse

/-- Python list slicing `xs[:n]` for an `int` bound `n`: the first `n`
elements when `n ≥ 0`, all but the last `n.natAbs` elements when `n < 0`. -/
def pySliceTo {α : Type} (n : Int) (xs : List α) : List α :=
  if 0 ≤ n then xs.take n.toNat
  else xs.take (xs.length - n.natAbs)

/-- Python `text.split()`: split on whitespace runs, dropping empties. -/
def pySplitWs (s : String) : List String :=
  (s.split Char.isWhitespace).filter (fun t => ¬ t.isEmpty)

/-- Line 204 of the source: `" ".join(text.split())`. -/
def pyNormalize (s : String) : String :=
  " ".intercalate (pySplitWs s)

/-- Hex digit (uppercase) of a value below 16. -/
def hexDigit (n : Nat) : Char :=
  if n < 10 then Char.ofNat (48 + n) else Char.ofNat (55 + n)

/-- Model of `urllib.parse.quote_plus` on one UTF-8 byte: space becomes `+`,
unreserved characters pass through, everything else is percent-encoded. -/
def quotePlusByte (b : UInt8) : String :=
  let n := b.toNat
  if n = 32 then "+"
  else if (48 ≤ n ∧ n ≤ 57) ∨ (65 ≤ n ∧ n ≤ 90) ∨ (97 ≤ n ∧ n ≤ 122)
       ∨ n = 45 ∨ n = 46 ∨ n = 95 ∨ n = 126 then
    String.singleton (Char.ofNat n)
  else
    "%" ++ String.singleton (hexDigit (n / 16)) ++ String.singleton (hexDigit (n % 16))

/-- Model of `urllib.parse.quote_plus(query)` (line 107). -/
def quotePlus (s : String) : String :=
  s.toUTF8.toList.foldl (fun acc b => acc ++ quotePlusByte b) ""

/-- Model of `BrowserTool.__init__` (lines 19-40).  Returns the constructed state
and the log trace.  Note the missing-file branch (`os.path.exists` false):
the source has no `else` there, so `self.llm` is left unassigned
(`LlmField.unset`) and nothing is logged. -/
def BrowserTool.construct (env : InitEnv) : BrowserTool × List Effect :=
  let base : BrowserTool :=
    { playwright := none, browser := none, page := none,
      initInProgress := false, llm := .unset }
  match env.llmEnvVar with
  | none =>
    ({ base with llm := .nil },
     [.logWarning "LLM not configured. Set LLM environment variable to enable summarization."])
  | some p =>
    let path := stripQuotes p
    if env.pathExists then
      match env.llamaLoad with
      | .ok h =>
        ({ base with llm := .loaded h },
         [.logInfo ("Loading LLM model from: " ++ path),
          .logInfo "LLM model loaded successfully"])
      | .error e =>
        ({ base with llm := .nil },
         [.logInfo ("Loading LLM model from: " ++ path),
          .logError ("Failed to load LLM model: " ++ e)])
    else
      (base, [])

/-- Lines 51-53: `if self.playwright is None: self.playwright = await
async_playwright().start()`. -/
def setupPlaywrightStep (env : SetupEnv) (s : BrowserTool) : PartialResult :=
  match s.playwright with
  | some _ => ⟨s, none, []⟩
  | none =>
    match env.startPW with
    | .ok h => ⟨{ s with playwright := some h }, none, [.startPlaywright]⟩
    | .error e => ⟨s, some e, [.startPlaywright]⟩

/-- Lines 55-64: `if self.browser is None: self.browser = await
self.playwright.chromium.launch(...)`. -/
def setupBrowserStep (env : SetupEnv) (s : BrowserTool) : PartialResult :=
  match s.browser with
  | some _ => ⟨s, none, []⟩
  | none =>
    match env.launch with
    | .ok h => ⟨{ s with browser := some h }, none, [.launchBrowser]⟩
    | .error e => ⟨s, some e, [.launchBrowser]⟩

/-- Lines 66-92: `if self.page is None:` create a context, create the
page, inject the anti-detection script.  `self.page` is assigned (line 85)
before `add_init_script` runs, so a script-injection failure still leaves
the page handle populated. -/
def setupPageStep (env : SetupEnv) (s : BrowserTool) : PartialResult :=
  match s.page with
  | some _ => ⟨s, none, []⟩
  | none =>
    match env.newCtx with
    | .error e => ⟨s, some e, [.newContext]⟩
    | .ok _ctx =>
      match env.newPg with
      | .error e => ⟨s, some e, [.newContext, .newPage]⟩
      | .ok pg =>
        match env.addScript with
        | .error e =>
          ⟨{ s with page := some pg }, some e, [.newContext, .newPage, .addInitScript]⟩
        | .ok _ =>
          ⟨{ s with page := some pg }, none, [.newContext, .newPage, .addInitScript]⟩

/-- Model of `BrowserTool._setup_browser` (lines 42-99).  The in-progress guard
(lines 44-46) returns immediately; otherwise the flag is set, the three
handle steps run in order, any raised exception is wrapped as
`Failed to initialize browser: ...` (line 97), and the `finally` block
(line 99) clears the flag on every path. -/
def setup_browser (env : SetupEnv) (s : BrowserTool) : StepResult Unit :=
  if s.initInProgress then ⟨.ok (), s, []⟩
  else
    match setupPlaywrightStep env { s with initInProgress := true } with
    | ⟨s2, some e, ef2⟩ =>
      ⟨.error ("Failed to initialize browser: " ++ e), { s2 with initInProgress := false }, ef2⟩
    | ⟨s2, none, ef2⟩ =>
      match setupBrowserStep env s2 with
      | ⟨s3, some e, ef3⟩ =>
        ⟨.error ("Failed to initialize browser: " ++ e), { s3 with initInProgress := false },
          ef2 ++ ef3⟩
      | ⟨s3, none, ef3⟩ =>
        match setupPageStep env s3 with
        | ⟨s4, some e, ef4⟩ =>
          ⟨.error ("Failed to initialize browser: " ++ e), { s4 with initInProgress := false },
            ef2 ++ ef3 ++ ef4⟩
        | ⟨s4, none, ef4⟩ =>
          ⟨.ok (), { s4 with initInProgress := false }, ef2 ++ ef3 ++ ef4⟩

/-- Line 108: the search request URL. -/
def buildSearchUrl (searxngUrl : Option String) (query : String) : String :=
  (searxngUrl.getD "http://192.168.77.8:8888") ++ "/search?q=" ++ quotePlus query ++ "&format=json"

/-- Lines 130-145: slice the backend array to `max_results`, keep entries
with a truthy (non-empty) title and url, build Search Result values. -/
def mapSearchResults (maxResults : Int) (rs : List RawResult) : List SearchResult :=
  (pySliceTo maxResults rs).filterMap fun r =>
    let title := r.title.getD ""
    let url := r.url.getD ""
    if title ≠ "" ∧ url ≠ "" then
      some { title := title, url := url, snippet := r.content.getD "" }
    else none

/-- Model of `BrowserTool.web_search` (lines 101-154).  The `_setup_browser` call
(line 103) is outside the `try`, so an initialization failure propagates;
every exception inside the `try` (lines 113-151) — including the
`AttributeError` from `self.page.goto` when the page handle is absent —
is caught on line 152 and the method returns `[]`. -/
def web_search (env : SearchEnv) (query : String) (maxResults : Int) (s : BrowserTool) :
    StepResult (List SearchResult) :=
  match setup_browser env.setup s with
  | ⟨.error e, s1, effs⟩ => ⟨.error e, s1, effs⟩
  | ⟨.ok _, s1, effs⟩ =>
    let url := buildSearchUrl env.searxngUrl query
    match s1.page with
    | none => ⟨.ok [], s1, effs⟩
    | some _ =>
      let effs := effs ++ [.pageGoto url]
      match env.gotoResult with
      | .error _ => ⟨.ok [], s1, effs⟩
      | .ok none => ⟨.ok [], s1, effs⟩
      | .ok (some r) =>
        match r.status with
        | none => ⟨.ok [], s1, effs⟩
        | some code =>
          if code = 200 then
            match env.contentResult with
            | .error _ => ⟨.ok [], s1, effs ++ [.pageContent]⟩
            | .ok _markup =>
              match env.preParsed with
              | none => ⟨.ok [], s1, effs ++ [.pageContent]⟩
              | some (.error _) => ⟨.ok [], s1, effs ++ [.pageContent]⟩
              | some (.ok data) =>
                match data.results with
                | .notList => ⟨.ok [], s1, effs ++ [.pageContent]⟩
                | .absent => ⟨.ok (mapSearchResults maxResults []), s1, effs ++ [.pageContent]⟩
                | .list rs => ⟨.ok (mapSearchResults maxResults rs), s1, effs ++ [.pageContent]⟩
          else ⟨.ok [], s1, effs⟩

/-- Model of `BrowserTool.navigate` (lines 156-183).  `_setup_browser` runs before
the `try`; inside the `try`, a `None` response raises (line 166), a
status `≥ 400` is only a logged warning (lines 169-171), a failed
selector wait raises (line 178), and the `except` on line 181 wraps every
exception as `Failed to navigate to <url>: ...`. -/
def navigate (env : NavEnv) (url : String) (waitForElement : Option String) (waitTime : Int)
    (s : BrowserTool) : StepResult Unit :=
  match setup_browser env.setup s with
  | ⟨.error e, s1, effs⟩ => ⟨.error e, s1, effs⟩
  | ⟨.ok _, s1, effs⟩ =>
    match s1.page with
    | none =>
      ⟨.error ("Failed to navigate to " ++ url ++ ": NoneType object has no attribute goto"),
        s1, effs⟩
    | some _ =>
      let effs := effs ++ [.pageGoto url]
      match env.gotoResult with
      | .error e => ⟨.error ("Failed to navigate to " ++ url ++ ": " ++ e), s1, effs⟩
      | .ok none =>
        ⟨.error ("Failed to navigate to " ++ url ++ ": Failed to navigate to " ++ url
            ++ " - no response received"), s1, effs⟩
      | .ok (some r) =>
        let warnEffs : List Effect :=
          match r.status with
          | some code =>
            if 400 ≤ code then
              [.logWarning ("Navigation returned status " ++ toString code ++ " for " ++ url)]
            else []
          | none => []
        match waitForElement with
        | none => ⟨.ok (), s1, effs ++ warnEffs⟩
        | some sel =>
          let effs2 := effs ++ warnEffs ++ [.waitForSelector sel]
          match env.waitSelector with
          | .ok _ => ⟨.ok (), s1, effs2⟩
          | .error e =>
            ⟨.error ("Failed to navigate to " ++ url ++ ": Element " ++ sel
                ++ " not found on page after " ++ toString waitTime ++ "s: " ++ e), s1, effs2⟩

/-- Model of `BrowserTool.extract_content` (lines 185-207).  Calls
`_setup_browser`, then `navigate(url, wait_for_element)` when a URL is
given (line 190), raises `No page loaded...` when the page handle is
still absent (line 193), otherwise retrieves the markup and returns the
whitespace-normalized extractor text (line 204). -/
def extract_content (env : ExtractEnv) (url : Option String) (waitForElement : Option String)
    (s : BrowserTool) : StepResult String :=
  match setup_browser env.setup s with
  | ⟨.error e, s1, effs⟩ => ⟨.error e, s1, effs⟩
  | ⟨.ok _, s1, effs⟩ =>
    let afterNav : StepResult Unit :=
      match url with
      | some u => navigate env.nav u waitForElement 10 s1
      | none => ⟨.ok (), s1, []⟩
    match afterNav with
    | ⟨.error e, s2, effs2⟩ => ⟨.error e, s2, effs ++ effs2⟩
    | ⟨.ok _, s2, effs2⟩ =>
      match s2.page with
      | none => ⟨.error "No page loaded. Navigate to a URL first.", s2, effs ++ effs2⟩
      | some _ =>
        match env.contentResult with
        | .error e => ⟨.error e, s2, effs ++ effs2 ++ [.pageContent]⟩
        | .ok _markup =>
          ⟨.ok (pyNormalize env.soupText), s2, effs ++ effs2 ++ [.pageContent]⟩

/-- Model of `BrowserTool.summarize` (lines 209-240).  `if not self.llm` raises
the configuration fault when the attribute is `None`; accessing a
never-assigned attribute raises `AttributeError` instead.  Text longer
than 4000 characters is truncated with an ellipsis marker, the prompt is
built, and the llama call is dispatched; an inference failure is wrapped
(line 240). -/
def summarize (env : SummarizeEnv) (text : String) (maxTokens : Int) (s : BrowserTool) :
    StepResult String :=
  match s.llm with
  | .unset => ⟨.error "AttributeError: BrowserTool object has no attribute llm", s, []⟩
  | .nil =>
    ⟨.error "LLM not configured. Set LLM environment variable with path to model file.", s, []⟩
  | .loaded _ =>
    let t := if 4000 < text.length then text.take 4000 ++ "..." else text
    let prompt := "Summarize the following text concisely:\n\n" ++ t ++ "\n\nSummary:"
    match env.llmResult with
    | .ok out => ⟨.ok out.trim, s, [.llmCall prompt maxTokens]⟩
    | .error e => ⟨.error ("Failed to generate summary: " ++ e), s, [.llmCall prompt maxTokens]⟩

/-- Lines 255-257 of `close`, plus the force-reset `except` branch
(lines 260-265). -/
def closeStopPhase (env : CloseEnv) (s : BrowserTool) (effs : List Effect) : StepResult Unit :=
  match s.playwright with
  | none => ⟨.ok (), s, effs⟩
  | some _ =>
    match env.playwrightStop with
    | .error _ =>
      ⟨.ok (), { s with page := none, browser := none, playwright := none },
        effs ++ [.playwrightStop]⟩
    | .ok _ => ⟨.ok (), { s with playwright := none }, effs ++ [.playwrightStop]⟩

/-- Lines 251-253 of `close`, plus the force-reset `except` branch. -/
def closeBrowserPhase (env : CloseEnv) (s : BrowserTool) (effs : List Effect) : StepResult Unit :=
  match s.browser with
  | none => closeStopPhase env s effs
  | some _ =>
    match env.browserClose with
    | .error _ =>
      ⟨.ok (), { s with page := none, browser := none, playwright := none },
        effs ++ [.browserClose]⟩
    | .ok _ => closeStopPhase env { s with browser := none } (effs ++ [.browserClose])

/-- Model of `BrowserTool.close` (lines 242-265): close page, browser, playwright
in order, each guarded by a presence check and set to `None` after a
successful close; any exception is caught (line 260) and all three
handles are force-reset to `None` (lines 263-265).  The method never
raises. -/
def BrowserTool.close (env : CloseEnv) (s : BrowserTool) : StepResult Unit :=
  match s.page with
  | none => closeBrowserPhase env s []
  | some _ =>
    match env.pageClose with
    | .error _ =>
      ⟨.ok (), { s with page := none, browser := none, playwright := none }, [.pageClose]⟩
    | .ok _ => closeBrowserPhase env { s with page := none } [.pageClose]

/-! ## Derived predicates -/

/-- The Session handle-ordering invariant (§3 of the spec): a page handle
is never present without the browsing context that owns it, and a context
never without the engine process.  The browsing context is not stored on
the object (it is created together with the page in the same guarded
block, lines 69-85), so context-presence coincides with page-presence;
the engine-process handle is `browser` and the automation-driver handle
`playwright`. -/
def HandleInv (s : BrowserTool) : Prop :=
  (s.page.isSome = true → s.browser.isSome = true) ∧
  (s.browser.isSome = true → s.playwright.isSome = true)

/-- The search-interaction failure cases enumerated by the spec: a raised
navigation error, a missing response, a non-200 (or missing) status, a
markup-retrieval failure, a missing preformatted block, malformed JSON,
or a missing / non-array `results` member. -/
def SearchDegrades (env : SearchEnv) : Prop :=
  (∃ e, env.gotoResult = .error e)
  ∨ env.gotoResult = .ok none
  ∨ (∃ r, env.gotoResult = .ok (some r) ∧ r.status = none)
  ∨ (∃ r c, env.gotoResult = .ok (some r) ∧ r.status = some c ∧ c ≠ 200)
  ∨ (∃ e, env.contentResult = .error e)
  ∨ env.preParsed = none
  ∨ (∃ e, env.preParsed = some (.error e))
  ∨ (∃ d, env.preParsed = some (.ok d) ∧ d.results = .absent)
  ∨ (∃ d, env.preParsed = some (.ok d) ∧ d.results = .notList)

/-- The exact conditions under which `navigate` raises: an initialization
failure, a page handle still absent after initialization, a raised load
error, a missing (`None`) response, or a requested selector whose wait
failed. -/
def NavRaises (env : NavEnv) (waitForElement : Option String) (s : BrowserTool) : Prop :=
  (setup_browser env.setup s).result.isOk = false
  ∨ (setup_browser env.setup s).state.page = none
  ∨ env.gotoResult.isOk = false
  ∨ env.gotoResult = .ok none
  ∨ (∃ sel, waitForElement = some sel ∧ env.waitSelector.isOk = false)

/-! ## Concrete fixtures -/

/-- A freshly constructed session: no handles, guard clear, llm `None`. -/
def sFresh : BrowserTool :=
  { playwright := none, browser := none, page := none, initInProgress := false, llm := .nil }

/-- A session observed at a suspension point of an in-flight
initialization: no handles populated yet, in-progress flag set. -/
def sBusy : BrowserTool :=
  { playwright := none, browser := none, page := none, initInProgress := true, llm := .nil }

/-- A fully initialized session. -/
def sOpen : BrowserTool :=
  { playwright := some 1, browser := some 2, page := some 3, initInProgress := false, llm := .nil }

/-- A setup environment in which every Playwright call succeeds. -/
def envSetupOk : SetupEnv :=
  { startPW := .ok 1, launch := .ok 2, newCtx := .ok 3, newPg := .ok 4, addScript := .ok () }

/-- A response with the given HTTP status. -/
def respOf (n : Int) : Response := { status := some n }

def navEnvOk : NavEnv :=
  { setup := envSetupOk, gotoResult := .ok (some (respOf 200)), waitSelector := .ok () }

def navEnv404 : NavEnv :=
  { setup := envSetupOk, gotoResult := .ok (some (respOf 404)), waitSelector := .ok () }

def envExtractOk : ExtractEnv :=
  { setup := envSetupOk, nav := navEnvOk, contentResult := .ok "<html><head></head><body></body></html>",
    soupText := "" }

def envInitMissingFile : InitEnv :=
  { llmEnvVar := some "/models/missing.gguf", pathExists := false, llamaLoad := .ok 7 }

def envSummarizeOk : SummarizeEnv := { llmResult := .ok "a summary" }

def rawA : RawResult := { title := some "T1", url := some "u1", content := some "c1" }

def rawB : RawResult := { title := some "T2", url := some "u2", content := some "c2" }

/-- A 200 backend response whose preformatted block holds two valid
entries. -/
def searchEnvTwo : SearchEnv :=
  { setup := envSetupOk, searxngUrl := none, gotoResult := .ok (some (respOf 200)),
    contentResult := .ok "markup", preParsed := some (.ok { results := .list [rawA, rawB] }) }

/-- A backend response with HTTP status 404. -/
def searchEnv404 : SearchEnv :=
  { setup := envSetupOk, searxngUrl := none, gotoResult := .ok (some (respOf 404)),
    contentResult := .ok "", preParsed := none }

def closeEnvOk : CloseEnv := { pageClose := .ok (), browserClose := .ok (), playwrightStop := .ok () }

/-! ## Helper lemmas -/

/-- The in-progress guard (lines 44-46): a re-entrant call is a no-op. -/
theorem setup_browser_busy (env : SetupEnv) (s : BrowserTool) (h : s.initInProgress = true) :
    setup_browser env s = ⟨.ok (), s, []⟩ := by
  simp [setup_browser, h]

/-- A non-re-entrant `_setup_browser` call that returns without raising
leaves all three handles populated. -/
theorem setup_ok_populates (env : SetupEnv) (s : BrowserTool)
    (hidle : s.initInProgress = false) (hok : (setup_browser env s).result = .ok ()) :
    (setup_browser env s).state.playwright.isSome = true ∧
    (setup_browser env s).state.browser.isSome = true ∧
    (setup_browser env s).state.page.isSome = true := by
  obtain ⟨pw, br, pg, fl, llm⟩ := s
  obtain ⟨e1, e2, e3, e4, e5⟩ := env
  simp only at hidle
  subst hidle
  cases pw <;> cases br <;> cases pg <;> cases e1 <;> cases e2 <;> cases e3 <;> cases e4 <;>
    cases e5 <;>
    simp_all [setup_browser, setupPlaywrightStep, setupBrowserStep, setupPageStep]

/-- The method `_setup_browser` preserves the handle-ordering invariant. -/
theorem setup_browser_preserves_inv (env : SetupEnv) (s : BrowserTool) (h : HandleInv s) :
    HandleInv (setup_browser env s).state := by
  obtain ⟨pw, br, pg, fl, llm⟩ := s
  obtain ⟨e1, e2, e3, e4, e5⟩ := env
  cases fl <;> cases pw <;> cases br <;> cases pg <;> cases e1 <;> cases e2 <;> cases e3 <;>
    cases e4 <;> cases e5 <;>
    simp_all [HandleInv, setup_browser, setupPlaywrightStep, setupBrowserStep, setupPageStep]

/-- One `_setup_browser` call performs at most one engine launch. -/
theorem setup_browser_launch_le_one (env : SetupEnv) (s : BrowserTool) :
    ((setup_browser env s).effects.count .launchBrowser) ≤ 1 := by
  obtain ⟨pw, br, pg, fl, llm⟩ := s
  obtain ⟨e1, e2, e3, e4, e5⟩ := env
  cases fl <;> cases pw <;> cases br <;> cases pg <;> cases e1 <;> cases e2 <;> cases e3 <;>
    cases e4 <;> cases e5 <;>
    (simp_all [setup_browser, setupPlaywrightStep, setupBrowserStep, setupPageStep]
     <;> decide)

/-- When a process handle already exists, `_setup_browser` performs no
launch at all. -/
theorem setup_browser_no_relaunch (env : SetupEnv) (s : BrowserTool)
    (h : s.browser.isSome = true) :
    (setup_browser env s).effects.count .launchBrowser = 0 := by
  obtain ⟨pw, br, pg, fl, llm⟩ := s
  obtain ⟨e1, e2, e3, e4, e5⟩ := env
  cases fl <;> cases pw <;> cases br <;> cases pg <;> cases e1 <;> cases e2 <;> cases e3 <;>
    cases e4 <;> cases e5 <;>
    (simp_all [setup_browser, setupPlaywrightStep, setupBrowserStep, setupPageStep]
     <;> decide)

/-- Mapping slice of an empty backend array gives no results. -/
theorem mapSearchResults_nil (mr : Int) : mapSearchResults mr [] = [] := by
  simp [mapSearchResults, pySliceTo]

/-- The result-building loop (lines 130-145) is exactly: slice, keep the
entries with non-empty title and url, project the three fields. -/
theorem mapSearchResults_eq (mr : Int) (rs : List RawResult) :
    mapSearchResults mr rs =
      ((pySliceTo mr rs).filter
          (fun a => a.title.getD "" ≠ "" ∧ a.url.getD "" ≠ "")).map
        (fun a => { title := a.title.getD "", url := a.url.getD "",
                    snippet := a.content.getD "" }) := by
  unfold mapSearchResults
  generalize pySliceTo mr rs = l
  induction l with
  | nil => rfl
  | cons a l ih =>
    by_cases h : a.title.getD "" ≠ "" ∧ a.url.getD "" ≠ ""
    · simp [List.filterMap_cons, List.filter_cons, h, ih]
    · simp [List.filterMap_cons, List.filter_cons, h, ih]

/-- The method `web_search` only mutates the session through its `_setup_browser`
call. -/
theorem web_search_state (env : SearchEnv) (q : String) (mr : Int) (s : BrowserTool) :
    (web_search env q mr s).state = (setup_browser env.setup s).state := by
  unfold web_search
  rcases h : setup_browser env.setup s with ⟨res, st, effs⟩
  cases res with
  | error e => rfl
  | ok u =>
    dsimp only
    repeat' split
    all_goals rfl

/-- The method `navigate` only mutates the session through its `_setup_browser`
call. -/
theorem navigate_state (env : NavEnv) (url : String) (w : Option String) (t : Int)
    (s : BrowserTool) :
    (navigate env url w t s).state = (setup_browser env.setup s).state := by
  unfold navigate
  rcases h : setup_browser env.setup s with ⟨res, st, effs⟩
  cases res with
  | error e => rfl
  | ok u =>
    dsimp only
    repeat' split
    all_goals rfl

/-! ## Claim C1 -/

/-- C1 counterexample: a `_setup_browser` call made while another
initialization is already in progress (guard flag set, handles not yet
populated) returns without raising, yet leaves every handle absent — the
claim that such a call also returns with all handles populated is false. -/
theorem setup_reentrant_unpopulated :
    (setup_browser envSetupOk sBusy).result = .ok () ∧
    (setup_browser envSetupOk sBusy).state.playwright = none ∧
    (setup_browser envSetupOk sBusy).state.browser = none ∧
    (setup_browser envSetupOk sBusy).state.page = none :=
  ⟨rfl, rfl, rfl, rfl⟩

/-- C1 (amended): every `_setup_browser` call entered while no other
initialization is in progress that returns without raising leaves the
playwright, browser-process and page handles all populated; a call made
while initialization is already in progress instead returns immediately,
without raising and without populating anything (state unchanged, no
external interaction). -/
theorem setup_populates_handles_when_idle :
    (∀ (env : SetupEnv) (s : BrowserTool), s.initInProgress = false →
      (setup_browser env s).result = .ok () →
      (setup_browser env s).state.playwright.isSome = true ∧
      (setup_browser env s).state.browser.isSome = true ∧
      (setup_browser env s).state.page.isSome = true) ∧
    (∀ (env : SetupEnv) (s : BrowserTool), s.initInProgress = true →
      setup_browser env s = ⟨.ok (), s, []⟩) :=
  ⟨setup_ok_populates, setup_browser_busy⟩

/-- C1 witness: on a fresh idle session with all Playwright calls
succeeding, initialization returns with all three handles populated. -/
theorem setup_populates_handles_when_idle_witness :
    (setup_browser envSetupOk sFresh).state.playwright.isSome = true ∧
    (setup_browser envSetupOk sFresh).state.browser.isSome = true ∧
    (setup_browser envSetupOk sFresh).state.page.isSome = true :=
  setup_populates_handles_when_idle.1 envSetupOk sFresh rfl rfl

/-! ## Claim C2 -/

/-- C2 counterexample: `extract_content` called with no URL on a fresh
session on which no page has ever been loaded does NOT raise the
extraction-precondition fault: the leading `_setup_browser` call creates
a blank page, so the call returns that page's (empty) normalized content.
The repository's own test `test_extract_content_without_url` expects this
non-raising behavior. -/
theorem extract_content_fresh_returns_content :
    (extract_content envExtractOk none none sFresh).result = .ok (pyNormalize "") ∧
    (extract_content envExtractOk none none sFresh).result.isOk = true :=
  ⟨rfl, rfl⟩

/-- C2 (amended): `extract_content` with no URL raises the
`No page loaded` precondition fault exactly when the page handle is still
absent after the initialization call — which happens only when
initialization was skipped because another initialization is in progress;
on an idle session whose initialization succeeds, a fresh (blank) page is
created and its whitespace-normalized extracted text is returned
instead. -/
theorem extract_content_precondition_iff :
    (∀ (env : ExtractEnv) (s : BrowserTool), s.initInProgress = true → s.page = none →
      (extract_content env none none s).result =
        .error "No page loaded. Navigate to a URL first.") ∧
    (∀ (env : ExtractEnv) (s : BrowserTool) (m : String), s.initInProgress = false →
      (setup_browser env.setup s).result = .ok () → env.contentResult = .ok m →
      (extract_content env none none s).result = .ok (pyNormalize env.soupText)) := by
  constructor
  · intro env s hbusy hpage
    have h := setup_browser_busy env.setup s hbusy
    simp [extract_content, h, hpage]
  · intro env s m hidle hok hcontent
    have hp := (setup_ok_populates env.setup s hidle hok).2.2
    unfold extract_content
    rcases h : setup_browser env.setup s with ⟨res, st, effs⟩
    rw [h] at hok hp
    dsimp only at hok hp
    subst hok
    dsimp only
    cases hpg : st.page with
    | none => rw [hpg] at hp; simp at hp
    | some p => simp [hpg, hcontent]

/-- C2 witness: the fault fires on a session caught mid-initialization
(flag set, no page), and extraction succeeds on an initialized session. -/
theorem extract_content_precondition_iff_witness :
    (extract_content envExtractOk none none sBusy).result =
      .error "No page loaded. Navigate to a URL first." ∧
    (extract_content envExtractOk none none sOpen).result = .ok (pyNormalize "") :=
  ⟨extract_content_precondition_iff.1 envExtractOk sBusy rfl rfl,
   extract_content_precondition_iff.2 envExtractOk sOpen
     "<html><head></head><body></body></html>" rfl rfl rfl⟩

/-! ## Claim C3 -/

/-- C3 (code bug): when the `LLM` environment variable names a
non-existent file, construction completes without a fault, but — contrary
to the spec — nothing is logged and the `llm` attribute is never assigned
(the `os.path.exists` branch has no `else`), so a subsequent `summarize`
raises an `AttributeError` rather than the configuration fault.  The
repository's own test `test_model_not_loaded_when_file_not_exists`
asserts `llm is None` in this situation and fails against the code. -/
theorem construct_missing_model_file_bug :
    (BrowserTool.construct envInitMissingFile).1.llm = .unset ∧
    (BrowserTool.construct envInitMissingFile).2 = [] ∧
    (summarize envSummarizeOk "some text" 200
        (BrowserTool.construct envInitMissingFile).1).result =
      .error "AttributeError: BrowserTool object has no attribute llm" :=
  ⟨rfl, rfl, rfl⟩

/-! ## Claim C4 -/

/-- C4: `close()` never raises, regardless of the starting state and of
whether the individual handle-close calls themselves fail; afterwards the
page, browser-process and driver handles are all absent; and a second
`close()` on the resulting state is a no-op returning normally, so a
double close behaves like a single one. -/
theorem close_idempotent_and_clears (env : CloseEnv) (s : BrowserTool) :
    (BrowserTool.close env s).result = .ok () ∧
    (BrowserTool.close env s).state.page = none ∧
    (BrowserTool.close env s).state.browser = none ∧
    (BrowserTool.close env s).state.playwright = none ∧
    (∀ env2 : CloseEnv, BrowserTool.close env2 (BrowserTool.close env s).state =
      ⟨.ok (), (BrowserTool.close env s).state, []⟩) := by
  obtain ⟨pw, br, pg, fl, llm⟩ := s
  obtain ⟨c1, c2, c3⟩ := env
  cases pw <;> cases br <;> cases pg <;> cases c1 <;> cases c2 <;> cases c3 <;>
    simp [BrowserTool.close, closeBrowserPhase, closeStopPhase]

/-! ## Claim C7 -/

/-- C7: an initialization call made while the in-progress flag is set is
a complete no-op (state unchanged, no external interaction, hence no
launch); every single `_setup_browser` call performs at most one engine
launch; and when a process handle already exists no launch is performed
at all — so no reachable execution creates a duplicate engine process. -/
theorem setup_no_duplicate_launch :
    (∀ (env : SetupEnv) (s : BrowserTool), s.initInProgress = true →
      setup_browser env s = ⟨.ok (), s, []⟩) ∧
    (∀ (env : SetupEnv) (s : BrowserTool),
      (setup_browser env s).effects.count .launchBrowser ≤ 1) ∧
    (∀ (env : SetupEnv) (s : BrowserTool), s.browser.isSome = true →
      (setup_browser env s).effects.count .launchBrowser = 0) :=
  ⟨setup_browser_busy, setup_browser_launch_le_one, setup_browser_no_relaunch⟩

/-- C7 witness: a re-entrant call during an in-flight initialization
performs no launch, and a call on a session whose process handle exists
performs no launch. -/
theorem setup_no_duplicate_launch_witness :
    setup_browser envSetupOk sBusy = ⟨.ok (), sBusy, []⟩ ∧
    (setup_browser envSetupOk sOpen).effects.count .launchBrowser = 0 :=
  ⟨setup_no_duplicate_launch.1 envSetupOk sBusy rfl,
   setup_no_duplicate_launch.2.2 envSetupOk sOpen rfl⟩

/-! ## Claim C9 -/

/-- C9: `summarize` on a session whose inference engine is not configured
(`self.llm is None`) raises the configuration fault before touching the
session: the returned state is exactly the input state (all handles and
the in-progress flag unchanged) and no external interaction — in
particular no initialization step and no navigation — is performed. -/
theorem summarize_unconfigured_pure (env : SummarizeEnv) (text : String) (mt : Int)
    (s : BrowserTool) (h : s.llm = .nil) :
    summarize env text mt s =
      ⟨.error "LLM not configured. Set LLM environment variable with path to model file.",
        s, []⟩ := by
  unfold summarize
  rw [h]

/-- C9 witness: the configuration fault on a fresh unconfigured session,
with the state returned untouched and no effects. -/
theorem summarize_unconfigured_pure_witness :
    summarize envSummarizeOk "abc" 200 sFresh =
      ⟨.error "LLM not configured. Set LLM environment variable with path to model file.",
        sFresh, []⟩ :=
  summarize_unconfigured_pure envSummarizeOk "abc" 200 sFresh rfl

/-! ## Claim C5 -/

/-- C5: provided its leading initialization call returns normally,
`web_search` never raises to its caller, and on every enumerated failure
of the search interaction — a raised load error, a missing response, a
non-200 (or missing) status, a markup-retrieval failure, a missing
preformatted block, malformed JSON, or a missing / non-array `results`
member — it returns the empty result sequence. -/
theorem web_search_best_effort (env : SearchEnv) (q : String) (mr : Int) (s : BrowserTool)
    (hsetup : (setup_browser env.setup s).result = .ok ()) :
    (web_search env q mr s).result.isOk = true ∧
    (SearchDegrades env → (web_search env q mr s).result = .ok []) := by
  constructor
  · unfold web_search
    rcases h : setup_browser env.setup s with ⟨res, st, effs⟩
    rw [h] at hsetup
    dsimp only at hsetup
    subst hsetup
    dsimp only
    (repeat' split) <;> rfl
  · intro hdeg
    unfold SearchDegrades at hdeg
    unfold web_search
    rcases h : setup_browser env.setup s with ⟨res, st, effs⟩
    rw [h] at hsetup
    dsimp only at hsetup
    subst hsetup
    dsimp only
    rcases hdeg with ⟨e, he⟩ | he | ⟨r, hr, hs0⟩ | ⟨r, c, hr, hs0, hne⟩ | ⟨e, he⟩ | he |
      ⟨e, he⟩ | ⟨d, hd, hres⟩ | ⟨d, hd, hres⟩ <;>
      (repeat' split) <;> first | rfl | simp_all [mapSearchResults_nil]

/-- C5 witness: a 404 backend response yields the empty result list
without raising. -/
theorem web_search_best_effort_witness :
    (web_search searchEnv404 "q" 10 sFresh).result = .ok [] :=
  (web_search_best_effort searchEnv404 "q" 10 sFresh rfl).2
    (Or.inr (Or.inr (Or.inr (Or.inl ⟨respOf 404, 404, rfl, rfl, by decide⟩))))

/-! ## Claim C6 -/

/-- C6: on a 200 backend response whose preformatted block parses to a
JSON object with a `results` array, `web_search` considers at most the
first `maxResults` entries in their original order, skips each considered
entry whose title or url is missing or empty, maps each remaining entry
to a Search Result with `snippet` taken from `content`, and returns at
most `maxResults` results. -/
theorem web_search_maps_results (env : SearchEnv) (q : String) (mr : Int) (s : BrowserTool)
    (r : Response) (d : SearchData) (rs : List RawResult) (m : String)
    (hsetup : (setup_browser env.setup s).result = .ok ())
    (hpage : (setup_browser env.setup s).state.page.isSome = true)
    (hgoto : env.gotoResult = .ok (some r))
    (hstatus : r.status = some 200)
    (hcontent : env.contentResult = .ok m)
    (hpre : env.preParsed = some (.ok d))
    (hres : d.results = .list rs)
    (hmr : 0 ≤ mr) :
    (web_search env q mr s).result =
      .ok (((rs.take mr.toNat).filter
          (fun a => a.title.getD "" ≠ "" ∧ a.url.getD "" ≠ "")).map
        (fun a => { title := a.title.getD "", url := a.url.getD "",
                    snippet := a.content.getD "" })) ∧
    (((rs.take mr.toNat).filter
          (fun a => a.title.getD "" ≠ "" ∧ a.url.getD "" ≠ "")).map
        (fun a => ({ title := a.title.getD "", url := a.url.getD "",
                     snippet := a.content.getD "" } : SearchResult))).length ≤ mr.toNat := by
  have hslice : pySliceTo mr rs = rs.take mr.toNat := by simp [pySliceTo, hmr]
  constructor
  · unfold web_search
    rcases h : setup_browser env.setup s with ⟨res, st, effs⟩
    rw [h] at hsetup hpage
    dsimp only at hsetup hpage
    subst hsetup
    dsimp only
    cases hpg : st.page with
    | none => rw [hpg] at hpage; simp at hpage
    | some p =>
      simp [hpg, hgoto, hstatus, hcontent, hpre, hres, mapSearchResults_eq, hslice]
  · simp only [List.length_map]
    exact le_trans (List.length_filter_le _ _) (List.length_take_le _ _)

/-- C6 witness: with two valid backend entries and `max_results = 1`,
exactly the first entry is returned. -/
theorem web_search_maps_results_witness :
    (web_search searchEnvTwo "q" 1 sFresh).result =
      .ok [{ title := "T1", url := "u1", snippet := "c1" }] := by
  have h := (web_search_maps_results searchEnvTwo "q" 1 sFresh (respOf 200)
      { results := .list [rawA, rawB] } [rawA, rawB] "markup"
      rfl rfl rfl rfl rfl rfl rfl (by decide)).1
  rw [h]
  rfl

/-! ## Claim C8 -/

/-- C8: `navigate` raises a fault exactly when the load yields no
response, a requested selector did not appear within the wait window, or
an underlying error occurs (a failed initialization, an absent page
handle, or a raised load call); a response whose HTTP status is `≥ 400`
alone is only logged as a warning and does not make `navigate` raise. -/
theorem navigate_fault_characterization (env : NavEnv) (url : String) (w : Option String)
    (t : Int) (s : BrowserTool) :
    ((navigate env url w t s).result.isOk = false ↔ NavRaises env w s) ∧
    (∀ (r : Response) (code : Int), (setup_browser env.setup s).result = .ok () →
      (setup_browser env.setup s).state.page.isSome = true →
      env.gotoResult = .ok (some r) → r.status = some code → 400 ≤ code →
      (Effect.logWarning ("Navigation returned status " ++ toString code ++ " for " ++ url)
          ∈ (navigate env url w t s).effects) ∧
      (w = none → (navigate env url w t s).result = .ok ())) := by
  obtain ⟨esetup, egoto, ewait⟩ := env
  unfold NavRaises navigate
  dsimp only
  rcases h : setup_browser esetup s with ⟨res, st, effs⟩
  constructor
  · cases res with
    | error e => simp [Except.isOk, Except.toBool]
    | ok u =>
      cases hpg : st.page with
      | none => simp_all [Except.isOk, Except.toBool]
      | some p =>
        rcases egoto with e | o
        · simp_all [Except.isOk, Except.toBool]
        · cases o with
          | none => simp_all [Except.isOk, Except.toBool]
          | some r =>
            cases w with
            | none => simp_all [Except.isOk, Except.toBool]
            | some sel =>
              rcases ewait with e | u2 <;> simp_all [Except.isOk, Except.toBool]
  · intro r code hsetup hpage hgoto hstatus hcode
    dsimp only at hsetup hpage
    subst hsetup
    subst hgoto
    dsimp only
    cases hpg : st.page with
    | none => rw [hpg] at hpage; simp at hpage
    | some p =>
      rw [hstatus]
      cases w <;> rcases ewait with e | u2 <;>
        simp_all [List.mem_append]

/-- C8 witness: a 404 response with no selector requested logs the
status warning and returns normally. -/
theorem navigate_fault_characterization_witness :
    (Effect.logWarning ("Navigation returned status " ++ toString (404 : Int) ++ " for "
        ++ "http://x") ∈ (navigate navEnv404 "http://x" none 10 sFresh).effects) ∧
    (navigate navEnv404 "http://x" none 10 sFresh).result = .ok () := by
  have h := (navigate_fault_characterization navEnv404 "http://x" none 10 sFresh).2
    (respOf 404) 404 rfl rfl rfl rfl (by decide)
  exact ⟨h.1, h.2 rfl⟩

/-! ## Claim C10 -/

/-- C10: every operation — initialization, search, navigation,
extraction, summarization and teardown — preserves the Session
handle-ordering invariant: at every operation boundary a page handle is
never present without its browsing context (created together with the
page), and a context/page is never present without the engine process
handle, which in turn is never present without the driver handle. -/
theorem operations_preserve_handle_invariant :
    (∀ (env : SetupEnv) (s : BrowserTool), HandleInv s →
      HandleInv (setup_browser env s).state) ∧
    (∀ (env : SearchEnv) (q : String) (mr : Int) (s : BrowserTool), HandleInv s →
      HandleInv (web_search env q mr s).state) ∧
    (∀ (env : NavEnv) (u : String) (w : Option String) (t : Int) (s : BrowserTool),
      HandleInv s → HandleInv (navigate env u w t s).state) ∧
    (∀ (env : ExtractEnv) (u w : Option String) (s : BrowserTool), HandleInv s →
      HandleInv (extract_content env u w s).state) ∧
    (∀ (env : SummarizeEnv) (txt : String) (mt : Int) (s : BrowserTool), HandleInv s →
      HandleInv (summarize env txt mt s).state) ∧
    (∀ (env : CloseEnv) (s : BrowserTool), HandleInv (BrowserTool.close env s).state) := by
  refine ⟨setup_browser_preserves_inv, ?_, ?_, ?_, ?_, ?_⟩
  · intro env q mr s h
    rw [web_search_state]
    exact setup_browser_preserves_inv env.setup s h
  · intro env u w t s h
    rw [navigate_state]
    exact setup_browser_preserves_inv env.setup s h
  · intro env u w s h
    unfold extract_content
    rcases hs : setup_browser env.setup s with ⟨res, st, effs⟩
    have hst : HandleInv st := by
      have h2 := setup_browser_preserves_inv env.setup s h
      rw [hs] at h2
      exact h2
    cases res with
    | error e => exact hst
    | ok u2 =>
      dsimp only
      cases u with
      | none =>
        dsimp only
        (repeat' split) <;> exact hst
      | some uu =>
        dsimp only
        rcases hn : navigate env.nav uu w 10 st with ⟨res2, st2, effs2⟩
        have hst2 : HandleInv st2 := by
          have h3 := setup_browser_preserves_inv env.nav.setup st hst
          rw [← navigate_state env.nav uu w 10 st, hn] at h3
          exact h3
        cases res2 with
        | error e => exact hst2
        | ok u3 =>
          dsimp only
          (repeat' split) <;> exact hst2
  · intro env txt mt s h
    unfold summarize
    (repeat' split) <;> exact h
  · intro env s
    obtain ⟨pw, br, pg, fl, llm⟩ := s
    obtain ⟨c1, c2, c3⟩ := env
    cases pw <;> cases br <;> cases pg <;> cases c1 <;> cases c2 <;> cases c3 <;>
      simp [HandleInv, BrowserTool.close, closeBrowserPhase, closeStopPhase]

/-- C10 witness: the invariant holds after initializing a fresh session. -/
theorem operations_preserve_handle_invariant_witness :
    HandleInv (setup_browser envSetupOk sFresh).state :=
  operations_preserve_handle_invariant.1 envSetupOk sFresh
    (by simp [HandleInv, sFresh])
